import Mathlib

/-!
Shallow embedding of `beetsplug/notify.py` (beets-notify plugin).

The plugin collects imported albums during one beets run and, at CLI exit,
composes a single bounded notification (title, body, optional artwork
attachment) and hands it to the Apprise delivery sink.

External collaborators (`os.path.getsize`, `ArtResizer.resize`,
`tempfile.NamedTemporaryFile`, `bytes.decode`, the Apprise sink) are modelled
as opaque function parameters gathered in environments; errors they may raise
are modelled with `Option` (`none` = the call raised).
-/

namespace BeetsNotify

/-- An album's art path as seen at `album.artpath`: either a Python `str`
or a Python `bytes` value (a list of byte values). -/
inductive ArtPath where
  | str (s : String)
  | bytes (b : List Nat)
deriving DecidableEq

/-- The fields of a beets album record that `build_message` reads. -/
structure Album where
  albumartist : String
  album : String
  year : Int
  artpath : Option ArtPath
deriving DecidableEq

/-- The plugin configuration keys read by the code
(`apprise_urls`, `truncate`, `body_maxlength`, `artwork`,
`artwork_maxsize`, `show_first_art`). -/
structure Config where
  apprise_urls : List String
  truncate : Nat
  body_maxlength : Nat
  artwork : Bool
  show_first_art : Bool
  artwork_maxsize : Nat
deriving DecidableEq

/-- Environment of external primitives used by the artwork pipeline.
`none` models the Python call raising an exception. -/
structure ArtEnv where
  getsize : String → Option Nat
  tmpName : String → String
  resizerResize : String → String → Nat → Option String
  utf8Decode : List Nat → Option String

/-- Python truthiness of `album.artpath`: `None`, `""` and `b""` are falsy. -/
def artTruthy : Option ArtPath → Bool
  | none => false
  | some (ArtPath.str s) => !s.isEmpty
  | some (ArtPath.bytes b) => !b.isEmpty

/-- `resize_artwork(art_path, max_filesize)`: `os.path.getsize` first (may
raise), then return the original path when `max_filesize == 0` or the current
size is within the cap, else resize into a fresh temp file (may raise). -/
def resize_artwork (env : ArtEnv) (art_path : String) (max_filesize : Nat) :
    Option String :=
  match env.getsize art_path with
  | none => none
  | some current_size =>
    if max_filesize = 0 ∨ current_size ≤ max_filesize then
      some art_path
    else
      env.resizerResize art_path (env.tmpName art_path) max_filesize

/-- Python `s[:k]` for an `int` k: nonnegative k takes the first k elements,
negative k drops the last `|k|` elements. -/
def pySlice (l : List Char) (k : Int) : List Char :=
  if 0 ≤ k then l.take k.toNat else l.take (l.length - (-k).toNat)

/-- `pySlice` lifted to `String`. -/
def pySliceStr (s : String) (k : Int) : String :=
  String.mk (pySlice s.data k)

/-- One body line: `f"{album.albumartist} - {album.album} ({album.year})"`. -/
def fmtLine (a : Album) : String :=
  a.albumartist ++ " - " ++ a.album ++ " (" ++ toString a.year ++ ")"

/-- `max_albums = min(len(imported_albums), truncate)`. -/
def displayCount (cfg : Config) (batch : List Album) : Nat :=
  min batch.length cfg.truncate

/-- The body lines built by the loop over `imported_albums[:max_albums]`. -/
def bodyLines (cfg : Config) (batch : List Album) : List String :=
  (batch.take (displayCount cfg batch)).map fmtLine

/-- The body after joining the lines and appending the
`"...and {remaining} more"` line when the batch was truncated
(before the final length bound is applied). -/
def assembledBody (cfg : Config) (batch : List Album) : String :=
  let body := String.intercalate "\n" (bodyLines cfg batch)
  if batch.length > displayCount cfg batch then
    body ++ "\n...and " ++ toString (batch.length - displayCount cfg batch) ++ " more"
  else
    body

/-- The final length bound: `if len(body) > max_length:
body = body[: max_length - 3] + "..."`. -/
def boundBody (max_length : Nat) (body : String) : String :=
  if body.length > max_length then
    pySliceStr body ((max_length : Int) - 3) ++ "..."
  else
    body

/-- The `try` block guarding the artwork work for the first looped album:
decode a `bytes` path as UTF-8, then `resize_artwork` with the configured
`artwork_maxsize`; any raise yields `none` (attachment stays unset). -/
def tryArtwork (env : ArtEnv) (cfg : Config) (album : Album) : Option String :=
  match album.artpath with
  | none => none
  | some (ArtPath.str s) => resize_artwork env s cfg.artwork_maxsize
  | some (ArtPath.bytes b) =>
    match env.utf8Decode b with
    | none => none
    | some s => resize_artwork env s cfg.artwork_maxsize

/-- The artwork selection performed inside the loop: only at loop index 0
(hence only when the truncated slice is non-empty), and only when the
`artwork` and `show_first_art` flags are set and the album's art path is
truthy. -/
def artworkOf (env : ArtEnv) (cfg : Config) (batch : List Album) :
    Option String :=
  match (batch.take (displayCount cfg batch)).head? with
  | none => none
  | some album =>
    if cfg.artwork && cfg.show_first_art && artTruthy album.artpath then
      tryArtwork env cfg album
    else
      none

/-- The notification title:
`f"Beets: {len(imported_albums)} {album_word} imported"`. -/
def titleOf (batch : List Album) : String :=
  "Beets: " ++ toString batch.length ++ " "
    ++ (if batch.length = 1 then "album" else "albums") ++ " imported"

/-- `build_message(imported_albums)` returns `(title, body, artwork_path)`. -/
def build_message (env : ArtEnv) (cfg : Config) (batch : List Album) :
    String × String × Option String :=
  (titleOf batch,
   boundBody cfg.body_maxlength (assembledBody cfg batch),
   artworkOf env cfg batch)

/-- Log levels of the beets logger calls used by the plugin. -/
inductive LogLevel where
  | debug
  | info
  | warning
  | error
deriving DecidableEq

/-- One emitted log line. -/
structure LogEntry where
  level : LogLevel
  msg : String
deriving DecidableEq

/-- The Apprise sink: `apobj.add(url)` returns whether the URL was accepted;
`deliverResult` is the outcome of `apobj.notify(...)` (`none` = it raised). -/
structure Sink where
  addTarget : String → Bool
  deliverResult : Option Bool

/-- Observable outcome of the dispatch path: the log lines in order, how many
times `apobj.notify` was invoked, and the message `build_message` produced
(`none` when composition was skipped). -/
structure DispatchResult where
  logs : List LogEntry
  deliverCalls : Nat
  message : Option (String × String × Option String)
deriving DecidableEq

/-- The URL registration loop: count accepted URLs (`len(apobj)`) and emit a
warning per rejected URL, in order. -/
def addUrls (sink : Sink) : List String → Nat × List LogEntry
  | [] => (0, [])
  | url :: rest =>
    let r := addUrls sink rest
    if sink.addTarget url then
      (r.1 + 1, r.2)
    else
      (r.1, ⟨LogLevel.warning, "failed to add apprise URL"⟩ :: r.2)

/-- `send_notification(lib, imported_albums)`: skip with a debug line when no
URLs are configured; otherwise build the message, register the URLs, abort
with an error when none registered, else call `apobj.notify` once and log the
outcome. -/
def send_notification (env : ArtEnv) (cfg : Config) (sink : Sink)
    (batch : List Album) : DispatchResult :=
  if cfg.apprise_urls.isEmpty then
    ⟨[⟨LogLevel.debug, "no apprise URLs configured"⟩], 0, none⟩
  else if (addUrls sink cfg.apprise_urls).1 = 0 then
    ⟨(addUrls sink cfg.apprise_urls).2
       ++ [⟨LogLevel.error, "no valid apprise URLs configured"⟩],
     0, some (build_message env cfg batch)⟩
  else
    match sink.deliverResult with
    | some true =>
      ⟨(addUrls sink cfg.apprise_urls).2 ++ [⟨LogLevel.info, "notification sent"⟩],
       1, some (build_message env cfg batch)⟩
    | some false =>
      ⟨(addUrls sink cfg.apprise_urls).2 ++ [⟨LogLevel.error, "notification failed"⟩],
       1, some (build_message env cfg batch)⟩
    | none =>
      ⟨(addUrls sink cfg.apprise_urls).2 ++ [⟨LogLevel.error, "notification error"⟩],
       1, some (build_message env cfg batch)⟩

/-- `notify_on_cli_exit(lib)`: return immediately on an empty batch,
otherwise log a debug line and dispatch. The first component is the plugin's
`imported_albums` state after the handler runs (the code never clears it). -/
def notify_on_cli_exit (env : ArtEnv) (cfg : Config) (sink : Sink)
    (state : List Album) : List Album × DispatchResult :=
  if state.isEmpty then
    (state, ⟨[], 0, none⟩)
  else
    (state,
     ⟨⟨LogLevel.debug, "sending notification"⟩
        :: (send_notification env cfg sink state).logs,
      (send_notification env cfg sink state).deliverCalls,
      (send_notification env cfg sink state).message⟩)

/-- `album_imported(lib, album)`: append to the in-memory batch. -/
def album_imported (state : List Album) (album : Album) : List Album :=
  state ++ [album]

/-! Concrete inputs used by counterexamples and witnesses. -/

/-- An environment where every external call succeeds: each file has size 10
and resizing returns the temp path. -/
def envOk : ArtEnv :=
  ⟨fun _ => some 10, fun p => "tmp_" ++ p, fun _ out _ => some out,
   fun _ => some "decoded.jpg"⟩

/-- An environment where every external call raises. -/
def envFail : ArtEnv :=
  ⟨fun _ => none, fun p => p, fun _ _ _ => none, fun _ => none⟩

/-- A plain album with no artwork. -/
def albumA : Album := ⟨"A", "X", 2020, none⟩

/-- Second sample album. -/
def albumB : Album := ⟨"B", "Y", 2021, none⟩

/-- Third sample album. -/
def albumC : Album := ⟨"C", "Z", 2022, none⟩

/-- An album whose art path is the string `"cover.jpg"`. -/
def albumArt : Album := ⟨"A", "X", 2020, some (ArtPath.str "cover.jpg")⟩

/-- An album whose art path is the invalid-UTF-8 bytes value `b"\xff"`. -/
def albumBytes : Album := ⟨"A", "X", 2020, some (ArtPath.bytes [255])⟩

/-- The spec's example batch. -/
def batch3 : List Album := [albumA, albumB, albumC]

/-- The default configuration of the plugin. -/
def cfgDefault : Config := ⟨["url"], 3, 1024, true, true, 0⟩

/-- Default configuration with `truncate` set to 0. -/
def cfgT0 : Config := ⟨["url"], 0, 1024, true, true, 0⟩

/-- Default configuration with `body_maxlength` set to 1. -/
def cfgTiny : Config := ⟨["url"], 3, 1, true, true, 0⟩

/-- Default configuration with `body_maxlength` set to 10. -/
def cfgSmall : Config := ⟨["url"], 3, 10, true, true, 0⟩

/-- The spec's example configuration with `truncate` set to 2. -/
def cfgEx : Config := ⟨["url"], 2, 1024, true, true, 0⟩

/-- Configuration whose single target the sink will reject. -/
def cfgBad : Config := ⟨["bad://x"], 3, 1024, true, true, 0⟩

/-- A sink that accepts every URL and delivers successfully. -/
def sinkYes : Sink := ⟨fun _ => true, some true⟩

/-- A sink that rejects every URL. -/
def sinkNo : Sink := ⟨fun _ => false, some true⟩

/-! Helper lemmas. -/

/-- `String.length` of a `String.mk` is the length of the character list. -/
theorem length_mk_eq (l : List Char) : (String.mk l).length = l.length := rfl

/-- `String.length` distributes over append. -/
theorem length_append_eq (s t : String) :
    (s ++ t).length = s.length + t.length := by
  cases s with
  | mk a =>
    cases t with
    | mk b => simp [String.length, String.instAppend, String.append]

/-- The head of a truncated list: `none` for a zero count, else the head. -/
theorem head_of_take (l : List Album) (k : Nat) :
    (l.take k).head? = if k = 0 then none else l.head? := by
  cases l <;> cases k <;> simp

/-- The accepted-URL count of the registration loop counts the URLs the sink
accepts. -/
theorem addUrls_fst (sink : Sink) (urls : List String) :
    (addUrls sink urls).1 = urls.countP (fun u => sink.addTarget u) := by
  induction urls with
  | nil => rfl
  | cons u rest ih =>
    by_cases h : sink.addTarget u <;>
      simp [addUrls, h, List.countP_cons, ih]

/-! Theorems for the claims. -/

/-- Claim C1 counterexample: with `truncate = 0` (so `displayCount = 0`),
`includeArtwork` and `showFirstArtwork` both true, a non-empty art path on
item 0, and an environment where resizing succeeds, `build_message` attaches
no artwork — contradicting "even when displayCount is 0, artwork from item 0
may still be attached". -/
theorem C1_counterexample :
    cfgT0.truncate = 0 ∧
    cfgT0.artwork = true ∧
    cfgT0.show_first_art = true ∧
    artTruthy albumArt.artpath = true ∧
    tryArtwork envOk cfgT0 albumArt = some "cover.jpg" ∧
    (build_message envOk cfgT0 [albumArt]).2.2 = none := by
  decide

/-- Claim C1 (amended): an artwork attachment is considered iff the batch is
non-empty, `truncate ≥ 1` (the truncated slice reaches item 0), both artwork
flags are true, and item 0 has a truthy art path; the attachment is then the
result of the artwork pipeline on item 0. -/
theorem C1_theorem (env : ArtEnv) (cfg : Config) (batch : List Album) :
    (build_message env cfg batch).2.2 =
      match batch.head? with
      | none => none
      | some a =>
        if 1 ≤ cfg.truncate ∧ cfg.artwork = true ∧ cfg.show_first_art = true
            ∧ artTruthy a.artpath = true then
          tryArtwork env cfg a
        else
          none := by
  show artworkOf env cfg batch = _
  cases batch with
  | nil => simp [artworkOf, displayCount]
  | cons a rest =>
    cases h : cfg.truncate with
    | zero =>
      simp [artworkOf, displayCount, h]
    | succ t =>
      have h1 : (1:Nat) ≤ t + 1 := Nat.succ_le_succ (Nat.zero_le t)
      simp only [artworkOf, displayCount, h, List.length_cons,
        Nat.succ_min_succ, List.take_succ_cons, List.head?_cons, h1,
        true_and, Bool.and_eq_true]
      by_cases ha : cfg.artwork = true <;>
        by_cases hs : cfg.show_first_art = true <;>
          by_cases ht : artTruthy a.artpath = true <;>
            simp [ha, hs, ht]

/-- Claim C2 counterexample: with `body_maxlength = 1` (which is `> 0`) the
final body is longer than the cap, because the Python slice
`body[: max_length - 3]` has a negative bound and keeps most of the body. -/
theorem C2_counterexample :
    0 < cfgTiny.body_maxlength ∧
    cfgTiny.body_maxlength < ((build_message envOk cfgTiny [albumA]).2.1).length := by
  decide

/-- Claim C2 (amended): for `body_maxlength ≥ 3` the final body length never
exceeds `body_maxlength`, and when the assembled body exceeded the cap the
final body is its first `body_maxlength - 3` characters followed by
`"..."`. -/
theorem C2_theorem (env : ArtEnv) (cfg : Config) (batch : List Album)
    (h : 3 ≤ cfg.body_maxlength) :
    ((build_message env cfg batch).2.1).length ≤ cfg.body_maxlength ∧
    (cfg.body_maxlength < (assembledBody cfg batch).length →
      (build_message env cfg batch).2.1 =
        String.mk ((assembledBody cfg batch).data.take (cfg.body_maxlength - 3))
          ++ "...") := by
  have hk : ((cfg.body_maxlength : Int) - 3).toNat = cfg.body_maxlength - 3 := by
    omega
  have hnn : (0:Int) ≤ (cfg.body_maxlength : Int) - 3 := by omega
  show (boundBody cfg.body_maxlength (assembledBody cfg batch)).length ≤ _ ∧ _
  constructor
  · unfold boundBody
    split
    · rename_i hgt
      rw [length_append_eq, pySliceStr, length_mk_eq, pySlice, if_pos hnn, hk,
        List.length_take]
      have h3 : ("..." : String).length = 3 := rfl
      rw [h3]
      omega
    · rename_i hle
      omega
  · intro hgt
    show boundBody cfg.body_maxlength (assembledBody cfg batch) = _
    unfold boundBody
    rw [if_pos hgt, pySliceStr, pySlice, if_pos hnn, hk]

/-- Claim C2 witness: a concrete run where the cap is at least 3 and the
bound holds. -/
theorem C2_witness :
    3 ≤ cfgSmall.body_maxlength ∧
    ((build_message envOk cfgSmall [albumA]).2.1).length ≤ cfgSmall.body_maxlength :=
  ⟨by decide, (C2_theorem envOk cfgSmall [albumA] (by decide)).1⟩

/-- Claim C3: for a non-empty batch of size N and truncate T, the body lists
exactly `min N T` items — the first `min N T` items of the batch in order,
each formatted by `fmtLine` and newline-joined — and, before length bounding,
the `"...and K more"` line is appended iff `K = N - min N T > 0`. -/
theorem C3_theorem (cfg : Config) (batch : List Album) (h : batch ≠ []) :
    (bodyLines cfg batch).length = min batch.length cfg.truncate ∧
    bodyLines cfg batch = (batch.take (min batch.length cfg.truncate)).map fmtLine ∧
    (batch.length - min batch.length cfg.truncate = 0 →
      assembledBody cfg batch = String.intercalate "\n" (bodyLines cfg batch)) ∧
    (0 < batch.length - min batch.length cfg.truncate →
      assembledBody cfg batch =
        String.intercalate "\n" (bodyLines cfg batch) ++ "\n...and "
          ++ toString (batch.length - min batch.length cfg.truncate) ++ " more") := by
  refine ⟨?_, rfl, ?_, ?_⟩
  · rw [bodyLines, List.length_map, List.length_take, displayCount]
    omega
  · intro h0
    rw [assembledBody, if_neg]
    rw [displayCount]
    omega
  · intro h0
    rw [assembledBody, if_pos]
    · rw [displayCount]
    · rw [displayCount]
      omega

/-- Claim C3 witness: the spec's example — three albums, truncate 2 — lists
two lines and appends `"...and 1 more"`. -/
theorem C3_witness :
    batch3 ≠ [] ∧
    (bodyLines cfgEx batch3).length = min batch3.length cfgEx.truncate ∧
    assembledBody cfgEx batch3 =
      String.intercalate "\n" (bodyLines cfgEx batch3) ++ "\n...and "
        ++ toString (batch3.length - min batch3.length cfgEx.truncate) ++ " more" :=
  ⟨by decide, (C3_theorem cfgEx batch3 (by decide)).1,
   (C3_theorem cfgEx batch3 (by decide)).2.2.2 (by decide)⟩

/-- Claim C4 counterexample: for the spec's three-album example the title is
`"Beets: 3 albums imported"`, not `"3 albums imported"` — the claim omits the
`"Beets: "` prefix the code always prepends. -/
theorem C4_counterexample :
    (build_message envOk cfgEx batch3).1 = "Beets: 3 albums imported" ∧
    (build_message envOk cfgEx batch3).1 ≠ "3 albums imported" := by
  decide

/-- Claim C4 (amended): for a non-empty batch of size N the title is exactly
`"Beets: <N> album imported"` when N = 1 and `"Beets: <N> albums imported"`
otherwise; the singular form appears iff N = 1. -/
theorem C4_theorem (env : ArtEnv) (cfg : Config) (batch : List Album)
    (h : batch ≠ []) :
    (build_message env cfg batch).1 =
      "Beets: " ++ toString batch.length ++ " "
        ++ (if batch.length = 1 then "album" else "albums") ++ " imported" ∧
    ((build_message env cfg batch).1 =
      "Beets: " ++ toString batch.length ++ " " ++ "album" ++ " imported"
      ↔ batch.length = 1) := by
  refine ⟨rfl, ?_⟩
  constructor
  · intro heq
    by_contra hne
    have h1 : (build_message env cfg batch).1 =
        "Beets: " ++ toString batch.length ++ " " ++ "albums" ++ " imported" := by
      show titleOf batch = _
      rw [titleOf, if_neg hne]
    rw [h1] at heq
    have h2 := congrArg String.length heq
    simp only [length_append_eq] at h2
    have h5 : ("albums" : String).length = 6 := rfl
    have h6 : ("album" : String).length = 5 := rfl
    rw [h5, h6] at h2
    omega
  · intro h1
    show titleOf batch = _
    rw [titleOf, if_pos h1]

/-- Claim C4 witness: the amended title at the spec's example batch. -/
theorem C4_witness :
    batch3 ≠ [] ∧ (build_message envOk cfgEx batch3).1 = "Beets: 3 albums imported" := by
  refine ⟨by decide, ?_⟩
  rw [(C4_theorem envOk cfgEx batch3 (by decide)).1]
  decide

/-- Claim C5 counterexample: on an empty batch `notify_on_cli_exit` returns
immediately — no composition, no delivery, and zero log lines, not the one
debug line the claim asserts. -/
theorem C5_counterexample :
    (notify_on_cli_exit envOk cfgDefault sinkYes []).2 = ⟨[], 0, none⟩ ∧
    (notify_on_cli_exit envOk cfgDefault sinkYes []).2.logs.length ≠ 1 := by
  decide

/-- Claim C5 (amended): for an empty batch at run end the composer and
dispatcher are skipped entirely — no message is composed, no delivery attempt
is made, and no log line at all is emitted (not even a debug line). -/
theorem C5_theorem (env : ArtEnv) (cfg : Config) (sink : Sink) :
    notify_on_cli_exit env cfg sink [] = ([], ⟨[], 0, none⟩) := rfl

/-- Claim C6 counterexample: after a successful end-of-run notification for a
one-album batch, the collector state is unchanged — it still holds the album
instead of being reset to empty. -/
theorem C6_counterexample :
    (notify_on_cli_exit envOk cfgDefault sinkYes [albumA]).1 = [albumA] ∧
    (notify_on_cli_exit envOk cfgDefault sinkYes [albumA]).1 ≠ [] := by
  decide

/-- Claim C6 (amended): at run end the full accumulated batch is passed to
message composition (when a target is configured), but the collector's state
is never reset — it survives the notification attempt unchanged, so a
subsequent run in the same process starts with the previous batch still
present. -/
theorem C6_theorem (env : ArtEnv) (cfg : Config) (sink : Sink)
    (state : List Album) :
    (notify_on_cli_exit env cfg sink state).1 = state ∧
    (state ≠ [] → cfg.apprise_urls ≠ [] →
      (notify_on_cli_exit env cfg sink state).2.message =
        some (build_message env cfg state)) := by
  constructor
  · rw [notify_on_cli_exit]
    split <;> rfl
  · intro hs hu
    rw [notify_on_cli_exit, if_neg]
    · show (send_notification env cfg sink state).message = _
      rw [send_notification, if_neg]
      · split
        · rfl
        · split <;> rfl
      · simp [List.isEmpty_iff, hu]
    · simp [List.isEmpty_iff, hs]

/-- Claim C6 witness: a concrete run where the state survives and the full
batch reaches composition. -/
theorem C6_witness :
    (notify_on_cli_exit envOk cfgDefault sinkYes batch3).1 = batch3 ∧
    (notify_on_cli_exit envOk cfgDefault sinkYes batch3).2.message =
      some (build_message envOk cfgDefault batch3) :=
  ⟨(C6_theorem envOk cfgDefault sinkYes batch3).1,
   (C6_theorem envOk cfgDefault sinkYes batch3).2 (by decide) (by decide)⟩

/-- Claim C7: when the cap is zero or the file's size is within the cap,
`resize_artwork` returns the original path unchanged; only when the size
exceeds a nonzero cap does it return the resizer's output at a fresh
temporary location. -/
theorem C7_theorem (env : ArtEnv) (p : String) (m sz : Nat)
    (hs : env.getsize p = some sz) :
    ((m = 0 ∨ sz ≤ m) → resize_artwork env p m = some p) ∧
    (m ≠ 0 → m < sz →
      resize_artwork env p m = env.resizerResize p (env.tmpName p) m) := by
  constructor
  · intro h
    rw [resize_artwork, hs]
    simp only [if_pos h]
  · intro h1 h2
    have hcond : ¬(m = 0 ∨ sz ≤ m) := by omega
    rw [resize_artwork, hs]
    simp only [if_neg hcond]

/-- Claim C7 witness: with cap 0 the original path comes back unchanged. -/
theorem C7_witness :
    envOk.getsize "cover.jpg" = some 10 ∧
    resize_artwork envOk "cover.jpg" 0 = some "cover.jpg" :=
  ⟨rfl, (C7_theorem envOk "cover.jpg" 0 10 rfl).1 (Or.inl rfl)⟩

/-- Claim C8: the dispatcher calls the sink's deliver at most once, and only
when at least one target registered; an empty configured target list is a
no-op with a single debug line, and when every target is rejected it logs an
error and makes no delivery attempt. -/
theorem C8_theorem (env : ArtEnv) (cfg : Config) (sink : Sink)
    (batch : List Album) :
    (send_notification env cfg sink batch).deliverCalls ≤ 1 ∧
    (cfg.apprise_urls = [] →
      send_notification env cfg sink batch =
        ⟨[⟨LogLevel.debug, "no apprise URLs configured"⟩], 0, none⟩) ∧
    ((∀ u ∈ cfg.apprise_urls, sink.addTarget u = false) → cfg.apprise_urls ≠ [] →
      (send_notification env cfg sink batch).deliverCalls = 0 ∧
      LogEntry.mk LogLevel.error "no valid apprise URLs configured"
        ∈ (send_notification env cfg sink batch).logs) ∧
    ((send_notification env cfg sink batch).deliverCalls = 1 →
      ∃ u ∈ cfg.apprise_urls, sink.addTarget u = true) := by
  refine ⟨?_, ?_, ?_, ?_⟩
  · rw [send_notification]
    split
    · exact Nat.zero_le 1
    · split
      · exact Nat.zero_le 1
      · split <;> exact Nat.le_refl 1
  · intro h
    rw [send_notification, if_pos]
    simp [List.isEmpty_iff, h]
  · intro hall hne
    have hz : (addUrls sink cfg.apprise_urls).1 = 0 := by
      rw [addUrls_fst, List.countP_eq_zero]
      intro u hu
      simp [hall u hu]
    rw [send_notification, if_neg, if_pos hz]
    · exact ⟨rfl, by simp⟩
    · simp [List.isEmpty_iff, hne]
  · intro hone
    by_contra hno
    push_neg at hno
    have hz : (addUrls sink cfg.apprise_urls).1 = 0 := by
      rw [addUrls_fst, List.countP_eq_zero]
      intro u hu
      simp [hno u hu]
    rw [send_notification] at hone
    by_cases he : cfg.apprise_urls.isEmpty
    · rw [if_pos he] at hone
      simp at hone
    · rw [if_neg he, if_pos hz] at hone
      simp at hone

/-- Claim C8 witness: the spec's example — a single target the sink rejects —
yields the "no valid targets" error and no delivery call. -/
theorem C8_witness :
    (send_notification envOk cfgBad sinkNo [albumA]).deliverCalls = 0 ∧
    LogEntry.mk LogLevel.error "no valid apprise URLs configured"
      ∈ (send_notification envOk cfgBad sinkNo [albumA]).logs :=
  (C8_theorem envOk cfgBad sinkNo [albumA]).2.2.1 (by decide) (by decide)

/-- Claim C9: composition is total and artwork failures are downgraded to
omission — the title and body do not depend on the artwork environment at
all, and when the artwork pipeline fails on item 0 the message is returned
with no attachment. -/
theorem C9_theorem (env envB : ArtEnv) (cfg : Config) (batch : List Album)
    (a : Album) :
    (build_message env cfg batch).1 = (build_message envB cfg batch).1 ∧
    (build_message env cfg batch).2.1 = (build_message envB cfg batch).2.1 ∧
    (batch.head? = some a → tryArtwork env cfg a = none →
      (build_message env cfg batch).2.2 = none) := by
  refine ⟨rfl, rfl, ?_⟩
  intro h0 hfail
  show artworkOf env cfg batch = none
  cases batch with
  | nil => simp at h0
  | cons x rest =>
    have hx : x = a := by simpa using h0
    subst hx
    cases hk : displayCount cfg (x :: rest) with
    | zero => simp [artworkOf, hk]
    | succ j => simp [artworkOf, hk, hfail]

/-- Claim C9 witness: an environment where every artwork primitive raises
still yields a message, with the attachment omitted. -/
theorem C9_witness :
    tryArtwork envFail cfgDefault albumArt = none ∧
    (build_message envFail cfgDefault [albumArt]).2.2 = none :=
  ⟨by decide,
   (C9_theorem envFail envOk cfgDefault [albumArt] albumArt).2.2 rfl (by decide)⟩

/-- Claim C10: a `bytes` art path on item 0 is decoded as UTF-8 before
resizing — on decode failure the attachment is omitted like any other artwork
failure, and on success the decoded string is what gets resized. -/
theorem C10_theorem (env : ArtEnv) (cfg : Config) (a : Album) (b : List Nat)
    (batch : List Album)
    (h0 : batch.head? = some a) (h1 : a.artpath = some (ArtPath.bytes b))
    (h2 : cfg.artwork = true) (h3 : cfg.show_first_art = true)
    (h4 : b ≠ []) (h5 : 1 ≤ cfg.truncate) :
    (env.utf8Decode b = none → (build_message env cfg batch).2.2 = none) ∧
    (∀ s, env.utf8Decode b = some s →
      (build_message env cfg batch).2.2 = resize_artwork env s cfg.artwork_maxsize) := by
  cases batch with
  | nil => simp at h0
  | cons x rest =>
    have hx : x = a := by simpa using h0
    subst hx
    obtain ⟨t, ht⟩ : ∃ t, cfg.truncate = t + 1 := by
      cases hc : cfg.truncate with
      | zero => omega
      | succ t => exact ⟨t, rfl⟩
    have hj : displayCount cfg (x :: rest) = min rest.length t + 1 := by
      rw [displayCount, ht, List.length_cons, Nat.succ_min_succ]
    have hb : b.isEmpty = false := by
      cases b with
      | nil => exact absurd rfl h4
      | cons y ys => rfl
    constructor
    · intro hd
      show artworkOf env cfg (x :: rest) = none
      simp [artworkOf, hj, h1, h2, h3, artTruthy, hb, tryArtwork, hd]
    · intro s hs
      show artworkOf env cfg (x :: rest) = _
      simp [artworkOf, hj, h1, h2, h3, artTruthy, hb, tryArtwork, hs]

/-- Claim C10 witness: invalid UTF-8 bytes (`b"\xff"`) on item 0 — the decode
fails and the message is composed with no attachment. -/
theorem C10_witness :
    envFail.utf8Decode [255] = none ∧
    (build_message envFail cfgDefault [albumBytes]).2.2 = none :=
  ⟨rfl,
   (C10_theorem envFail cfgDefault albumBytes [255] [albumBytes]
      rfl rfl rfl rfl (by decide) (by decide)).1 rfl⟩

end BeetsNotify
